import Mathlib

/-!
Shallow embedding of the HyperEVM NFT tracker (src/main.py) and proofs
checking the natural-language specification against it.

Conventions of the embedding:
* Python integers are `Nat` (all quantities in the program are unsigned).
* A 32-byte topic and a 32-byte data word are `Nat` values; the hex-string
  form `topics[i].hex()` is `0x` followed by 64 lowercase hex digits, so
  slicing `[26:]` keeps exactly the 40 low hex digits, embedded as
  `addrFromTopic` below.
* The opaque log data payload, which the code splits into 64-hex-char
  chunks and parses with int(chunk, 16), is embedded directly as the list
  of its 32-byte words (`List Nat`); the length checks on the chunk list
  become length checks on this list.
* Python dicts returned by the decoders are association lists
  `List (String × PyVal)` in insertion order; a missing-key access
  (KeyError) and other caught exceptions surface as `none`.
* Each `send_*_notification` returns `Option String`: `some msg` when the
  message builds and is handed to the bot with the configured chat id,
  `none` when an exception inside the try block is caught and nothing is
  sent.  `bot.send_message` itself is the external Notifier collaborator
  and is treated as succeeding.
* The keccak hash of the Transfer signature is a capability of the Ledger
  Client; its well-known value is used as a literal constant.
-/

/-- A Python value appearing in the decoder dictionaries: an int or a str. -/
inductive PyVal where
  | int (n : Nat)
  | str (s : String)
deriving DecidableEq, Repr

/-- A Python dict in insertion order. -/
def PyDict := List (String × PyVal)
deriving DecidableEq, Repr

/-- Dictionary access `d[k]`; `none` is a KeyError. -/
def dictGet (d : PyDict) (k : String) : Option PyVal :=
  (List.find? (fun p => p.1 == k) d).map (fun p => p.2)

/-- Python truthiness of a value. -/
def pyTruthy : PyVal → Bool
  | .int n => n != 0
  | .str s => s != ""

/-- Python str() of a value. -/
def pyStr : PyVal → String
  | .int n => toString n
  | .str s => s

/-- Python str() of a nullable field such as tx.to (None prints as "None"). -/
def pyOptStr : Option String → String
  | some s => s
  | none => "None"

/-- The expression `", ".join(map(str, v))`.  On an int it raises
TypeError (map needs an iterable), embedded as `none`; a str is iterable
over its characters. -/
def pyJoinMapStr : PyVal → Option String
  | .int _ => none
  | .str s => some (String.intercalate ", " (s.toList.map (fun c => String.singleton c)))

/-- `v` coerced to an integer for `web3.from_wei`; a str raises, giving `none`. -/
def pyToInt : PyVal → Option Nat
  | .int n => some n
  | .str _ => none

/-- Python str.lower() (ASCII lowering, enough for hex addresses). -/
def strLower (s : String) : String := String.mk (s.toList.map Char.toLower)

/-- Lowercase hex digits of `n`, left-padded with zeros to 40 digits. -/
def hexPad40 (n : Nat) : String :=
  let s := String.mk (Nat.toDigits 16 n)
  String.mk (List.replicate (40 - s.length) '0') ++ s

/-- `"0x" + topics[i].hex()[26:]`: the low 20 bytes of a 32-byte topic as
a 0x-prefixed 40-hex-digit address string. -/
def addrFromTopic (t : Nat) : String :=
  "0x" ++ hexPad40 (t % (2 ^ 160))

/-- One raw event log record: emitting address, topic words, data words. -/
structure LogRecord where
  address : String
  topics : List Nat
  data : List Nat
deriving DecidableEq, Repr

/-- A transaction as the code reads it: `from`/`to` addresses (to is
nullable), the input data as a hex string, declared value in wei, gas
price. -/
structure Transaction where
  hash : String
  fromAddr : String
  toAddr : Option String
  input : String
  value : Nat
  gasPrice : Nat
deriving DecidableEq, Repr

/-- A transaction receipt: status (1 = success), gas used, ordered logs. -/
structure Receipt where
  status : Nat
  gasUsed : Nat
  logs : List LogRecord
deriving DecidableEq, Repr

/-- keccak("Transfer(address,address,uint256)"), via the Ledger Client. -/
def transfer_topic : Nat :=
  0xddf252ad1be2c89b69c2b068fc378daa952ba7f163c4a11628f55a4df523b3ef

/-- The fixed BidAccepted signature hash from the source. -/
def bid_accepted_topic : Nat :=
  0xf6b2b7813b1815a0e2e32964b4f22ec24862322d9c9c0e0eefac425dfc455ab1

/-- The fixed ItemSold signature hash from the source. -/
def item_sold_topic : Nat :=
  0x72d3f914473a393354e6fcd9c3cb7d2eee53924b9b856f9da274e024566292a5

/-- The tracked contract address constant from the source. -/
def CONTRACT_ADDRESS : String := "0xb6c73F6c09f850651DCb6D62a4D3A7F25e0016C4"

/-- `self.contract_address = CONTRACT_ADDRESS.lower()`. -/
def contract_address : String := strLower CONTRACT_ADDRESS

/-- decode_bid_accepted_event: requires at least 8 data words, reads
bidType from word 0, pricePerItem from word 2, quantity from word 3,
tokenId from word 7; bidder and nftAddress come from topics[1] and
topics[2] (an IndexError there is caught, giving None); seller comes from
topics[3] when present, else the sentinel "Unknown". -/
def decode_bid_accepted_event (log : LogRecord) : Option PyDict :=
  if log.data.length < 8 then none
  else
    match log.topics.get? 1, log.topics.get? 2 with
    | some t1, some t2 =>
      let seller : PyVal :=
        match log.topics.get? 3 with
        | some t3 => .str (addrFromTopic t3)
        | none => .str "Unknown"
      some [("tokenId", .int (log.data.getD 7 0)),
            ("bidType", .int (log.data.getD 0 0)),
            ("bidder", .str (addrFromTopic t1)),
            ("nftAddress", .str (addrFromTopic t2)),
            ("pricePerItem", .int (log.data.getD 2 0)),
            ("quantity", .int (log.data.getD 3 0)),
            ("seller", seller),
            ("paymentToken", .str "WHYPE")]
    | _, _ => none

/-- decode_item_sold_event: requires at least 6 data words, reads
pricePerItem from word 0, quantity from word 1, tokenId from word 2;
every topic access is guarded, a missing topic becomes "Unknown". -/
def decode_item_sold_event (log : LogRecord) : Option PyDict :=
  if log.data.length < 6 then none
  else
    let buyer : PyVal :=
      match log.topics.get? 1 with
      | some t1 => .str (addrFromTopic t1)
      | none => .str "Unknown"
    let nft : PyVal :=
      match log.topics.get? 2 with
      | some t2 => .str (addrFromTopic t2)
      | none => .str "Unknown"
    let seller : PyVal :=
      match log.topics.get? 3 with
      | some t3 => .str (addrFromTopic t3)
      | none => .str "Unknown"
    some [("tokenId", .int (log.data.getD 2 0)),
          ("buyer", buyer),
          ("seller", seller),
          ("nftAddress", nft),
          ("pricePerItem", .int (log.data.getD 0 0)),
          ("quantity", .int (log.data.getD 1 0)),
          ("paymentToken", .str "WHYPE")]

/-- extract_token_ids_from_logs.  The whole loop body sits in a single
try block whose handler is OUTSIDE the loop: the guarded Transfer branch
cannot raise, and the decoders catch their own errors, but the elif
dispatch reads topics[0] unguarded, so a log with zero topics raises
IndexError and the handler returns whatever was accumulated so far,
dropping every later log. -/
def extract_token_ids_from_logs (contract : String) :
    List LogRecord → List Nat × List (String × PyDict)
  | [] => ([], [])
  | log :: rest =>
    if 4 ≤ log.topics.length ∧ log.topics.headD 0 = transfer_topic ∧
        strLower log.address = contract then
      let r := extract_token_ids_from_logs contract rest
      (log.topics.getD 3 0 :: r.1, r.2)
    else
      match log.topics with
      | [] => ([], [])
      | t0 :: _ =>
        if t0 = bid_accepted_topic then
          match decode_bid_accepted_event log with
          | some d =>
            match dictGet d "tokenId" with
            | some (.int n) =>
              let r := extract_token_ids_from_logs contract rest
              (n :: r.1, ("BidAccepted", d) :: r.2)
            | _ => extract_token_ids_from_logs contract rest
          | none => extract_token_ids_from_logs contract rest
        else if t0 = item_sold_topic then
          match decode_item_sold_event log with
          | some d =>
            match dictGet d "tokenId" with
            | some (.int n) =>
              let r := extract_token_ids_from_logs contract rest
              (n :: r.1, ("ItemSold", d) :: r.2)
            | _ => extract_token_ids_from_logs contract rest
          | none => extract_token_ids_from_logs contract rest
        else extract_token_ids_from_logs contract rest

/-- Round `r` wei to micro-HYPE (6 fractional digits of the 10^18-scaled
unit) with ties to even, as Decimal formatting with :.6f does. -/
def microHalfEven (r : Nat) : Nat :=
  if 500000000000 < r % 1000000000000 then r / 1000000000000 + 1
  else if r % 1000000000000 < 500000000000 then r / 1000000000000
  else if (r / 1000000000000) % 2 = 0 then r / 1000000000000
  else r / 1000000000000 + 1

/-- `n` rendered as exactly 6 decimal digits, left-padded with zeros. -/
def pad6 (n : Nat) : String :=
  let s := toString n
  String.mk (List.replicate (6 - s.length) '0') ++ s

/-- The displayed price: web3.from_wei(r, "ether") formatted with :.6f,
that is r / 10^18 with 6 fractional digits. -/
def formatWei6 (r : Nat) : String :=
  toString (microHalfEven r / 1000000) ++ "." ++ pad6 (microHalfEven r % 1000000)

/-- An ASCII single-quote character, as the f-strings wrap addresses in
single quotes. -/
def sglq : String := String.singleton (Char.ofNat 39)

/-- The shared triple-quoted f-string template of all three notification
messages (identical text is repeated in the source at each send site). -/
def trackerMessage (tid price seller buyer : String) : String :=
  "\nPiP & Friends " ++ tid ++ " was bought for " ++ price ++ " HYPE\n\nfrom: "
    ++ sglq ++ seller ++ sglq ++ "\nto: " ++ sglq ++ buyer ++ sglq ++ "\n            "

/-- send_item_sold_notification.  Evaluation inside the try block:
from_wei on pricePerItem, then the f-string, whose first hole joins
map(str, tokenId) when tokenId is truthy; the later holes read the
seller and bidder keys.  Any failure is caught: nothing is sent. -/
def send_item_sold_notification (item_data : PyDict) : Option String := do
  let pp ← dictGet item_data "pricePerItem"
  let ppn ← pyToInt pp
  let price := formatWei6 ppn
  let tid ← dictGet item_data "tokenId"
  let tidStr ← if pyTruthy tid then pyJoinMapStr tid else pure "Unknown"
  let seller ← dictGet item_data "seller"
  let bidder ← dictGet item_data "bidder"
  pure (trackerMessage tidStr price (pyStr seller) (pyStr bidder))

/-- send_bid_accepted_notification: textually the same body as the
ItemSold sender, reading from the bid dict. -/
def send_bid_accepted_notification (bid_data : PyDict) : Option String := do
  let pp ← dictGet bid_data "pricePerItem"
  let ppn ← pyToInt pp
  let price := formatWei6 ppn
  let tid ← dictGet bid_data "tokenId"
  let tidStr ← if pyTruthy tid then pyJoinMapStr tid else pure "Unknown"
  let seller ← dictGet bid_data "seller"
  let bidder ← dictGet bid_data "bidder"
  pure (trackerMessage tidStr price (pyStr seller) (pyStr bidder))

/-- send_generic_notification: here token_ids is a real list, so the
join succeeds, and tx_value_hype is tx.value from_wei when positive else
the int 0 — both format to the same :.6f string. -/
def send_generic_notification (token_ids : List Nat) (buyer seller : String)
    (value : Nat) : Option String :=
  let tidStr :=
    if token_ids.isEmpty then "Unknown"
    else String.intercalate ", " (token_ids.map toString)
  pure (trackerMessage tidStr (formatWei6 value) seller buyer)

/-- handle_nft_transaction: classify the receipt logs, send one typed
notification per decoded event in log order, and when no typed event but
at least one bare token id was seen, send exactly one generic
notification built from the transaction itself (buyer = tx.to,
seller = tx.from, price = tx.value). -/
def handle_nft_transaction (contract : String) (tx : Transaction)
    (receipt : Receipt) : List (Option String) :=
  let r := extract_token_ids_from_logs contract receipt.logs
  let token_ids := r.1
  let event_details := r.2
  let typed := event_details.map (fun te =>
    if te.1 = "ItemSold" then send_item_sold_notification te.2
    else send_bid_accepted_notification te.2)
  if event_details.isEmpty && !token_ids.isEmpty then
    typed ++ [send_generic_notification token_ids (pyOptStr tx.toAddr)
      tx.fromAddr tx.value]
  else typed

/-- analyze_transaction: a non-success receipt returns immediately; the
transaction is handled only when tx.input is truthy and at least 10
characters long (hex-string selector check). -/
def analyze_transaction (contract : String) (tx : Transaction)
    (receipt : Receipt) : List (Option String) :=
  if receipt.status ≠ 1 then []
  else if tx.input ≠ "" ∧ 10 ≤ tx.input.length then
    handle_nft_transaction contract tx receipt
  else []

/-- `tx.to and tx.to.lower() == self.contract_address`. -/
def qualifies (contract : String) (tx : Transaction) : Bool :=
  match tx.toAddr with
  | some a => strLower a == contract
  | none => false

/-- process_block: analyze exactly the transactions addressed to the
tracked contract, in block order; receipts come from the Ledger Client,
modelled as a function of the transaction. -/
def process_block (contract : String) (receiptOf : Transaction → Receipt) :
    List Transaction → List (Option String)
  | [] => []
  | tx :: rest =>
    (if qualifies contract tx then analyze_transaction contract tx (receiptOf tx)
     else []) ++ process_block contract receiptOf rest

/-- One cycle of track_transactions with cursor `c` observing head `h`:
python range(c + 1, h + 1) is processed in ascending order, then the
cursor is set to `h` (unconditionally, even when h < c). -/
def pollCycle (c h : Nat) : Nat × List Nat :=
  (h, List.range' (c + 1) (h - c))

/-- The poll loop over a list of successive observed head heights,
returning the final cursor and the concatenation of all processed block
heights in order. -/
def pollTrace (c : Nat) : List Nat → Nat × List Nat
  | [] => (c, [])
  | h :: hs =>
    let r := pollTrace h hs
    (r.1, List.range' (c + 1) (h - c) ++ r.2)

/-- Split a character list at every dot. -/
def splitDot : List Char → List (List Char)
  | [] => [[]]
  | c :: cs =>
    let r := splitDot cs
    if c = '.' then [] :: r
    else
      match r with
      | [] => [[c]]
      | h :: t => (c :: h) :: t

/-- Decimal digit characters to their value, `none` on a non-digit. -/
def digitsVal? : List Char → Nat → Option Nat
  | [], acc => some acc
  | c :: cs, acc =>
    if c.isDigit then digitsVal? cs (acc * 10 + (c.toNat - 48)) else none

/-- Parse a rendered fixed-point price string back into micro-units:
inverse of the :.6f rendering on its image. -/
def parseFixed6 (s : String) : Option Nat :=
  match splitDot s.toList with
  | [a, b] =>
    if b.length = 6 ∧ a ≠ [] then do
      let ai ← digitsVal? a 0
      let bi ← digitsVal? b 0
      pure (ai * 1000000 + bi)
    else none
  | _ => none

/-- Rounding back a value already expressed in whole micro-units is the
identity: rendering introduces no further change. -/
lemma microHalfEven_mul (m : Nat) : microHalfEven (m * 1000000000000) = m := by
  unfold microHalfEven
  have h1 : m * 1000000000000 / 1000000000000 = m := by omega
  have h2 : m * 1000000000000 % 1000000000000 = 0 := by omega
  rw [h1, h2]
  norm_num

/-- C10: every displayed price divides the raw integer by 10^18 and
renders 6 fractional digits; the conversion is stable under re-parsing:
raw 1_500000000000000000 renders as "1.500000", parsing that string back
gives 1_500000 micro-units, and re-rendering any parsed-back raw amount
reproduces the displayed string exactly. -/
theorem c10_theorem :
    formatWei6 1500000000000000000 = "1.500000"
    ∧ parseFixed6 "1.500000" = some 1500000
    ∧ formatWei6 (1500000 * 1000000000000) = "1.500000"
    ∧ (∀ r : Nat, formatWei6 (microHalfEven r * 1000000000000) = formatWei6 r) := by
  refine ⟨by decide, by decide, by decide, ?_⟩
  intro r
  unfold formatWei6
  rw [microHalfEven_mul]

/-- C7: within one poll cycle observing head h from cursor c with
c ≤ h, the processed heights are exactly c+1 .. h, each exactly once, in
strictly ascending order, and the cursor afterwards is h. -/
theorem c7_theorem (c h : Nat) (hch : c ≤ h) :
    (pollCycle c h).1 = h
    ∧ (∀ x, x ∈ (pollCycle c h).2 ↔ c < x ∧ x ≤ h)
    ∧ (pollCycle c h).2.Nodup
    ∧ (pollCycle c h).2.Pairwise (· < ·) := by
  refine ⟨rfl, ?_, List.nodup_range' _ _, List.pairwise_lt_range' _ _⟩
  intro x
  simp only [pollCycle, List.mem_range'_1]
  omega

/-- C7 witness: the cycle from cursor 3 to head 5 processes exactly
heights 4 and 5, once each, ascending, and ends with cursor 5. -/
theorem c7_witness :
    (pollCycle 3 5).1 = 5
    ∧ (∀ x, x ∈ (pollCycle 3 5).2 ↔ 3 < x ∧ x ≤ 5)
    ∧ (pollCycle 3 5).2.Nodup
    ∧ (pollCycle 3 5).2.Pairwise (· < ·) :=
  c7_theorem 3 5 (by decide)

/-- Along a poll trace whose observed heads form a nondecreasing chain
from the starting cursor, the cursor never moves backward. -/
lemma pollTrace_cursor_le (c : Nat) (hs : List Nat)
    (h : List.Chain (· ≤ ·) c hs) : c ≤ (pollTrace c hs).1 := by
  induction hs generalizing c with
  | nil => exact Nat.le_refl c
  | cons a as ih =>
    cases h with
    | cons hca hch =>
      simpa [pollTrace] using Nat.le_trans hca (ih a hch)

/-- Along a nondecreasing trace the processed heights form one contiguous
duplicate-free range above the starting cursor. -/
lemma pollTrace_processed_range (c : Nat) (hs : List Nat)
    (h : List.Chain (· ≤ ·) c hs) :
    (pollTrace c hs).2 = List.range' (c + 1) ((pollTrace c hs).1 - c) := by
  induction hs generalizing c with
  | nil => simp [pollTrace]
  | cons a as ih =>
    cases h with
    | cons hca hch =>
      have hal := pollTrace_cursor_le a as hch
      simp only [pollTrace]
      rw [ih a hch]
      have h1 : (c + 1) + (a - c) = a + 1 := by omega
      rw [← h1, List.range'_append_1]
      congr 1
      omega

/-- C3 counterexample: starting from cursor 10 and observing heads
12, 8, 12 in successive cycles, the loop processes [11, 12, 9, 10, 11, 12]:
height 11 (and 12) is processed twice, so cursor advance is not monotone;
moreover the H < C cycle sets the cursor to 8, not to the old cursor 12,
so it is not treated as H == C. -/
theorem c3_counterexample :
    (pollTrace 10 [12, 8, 12]).2 = [11, 12, 9, 10, 11, 12]
    ∧ (pollTrace 10 [12, 8, 12]).2.count 11 = 2
    ∧ ¬ (pollTrace 10 [12, 8, 12]).2.Nodup
    ∧ (pollCycle 12 8).1 = 8 := by decide

/-- C3 (amended): a cycle observing H < C processes no heights and
raises no error, but sets the cursor to H rather than keeping C, so the
cursor can move backward and heights in (H, C] can be processed again
later; monotone advance and never-twice processing hold exactly when the
observed heads never decrease (a nondecreasing chain from the cursor). -/
theorem c3_theorem (c h : Nat) (hs : List Nat) :
    (h < c → pollCycle c h = (h, []))
    ∧ (List.Chain (· ≤ ·) c hs → (pollTrace c hs).2.Nodup) := by
  constructor
  · intro hlt
    simp [pollCycle, Nat.sub_eq_zero_of_le (Nat.le_of_lt hlt)]
  · intro hch
    rw [pollTrace_processed_range c hs hch]
    exact List.nodup_range' _ _

/-- C3 witness: the backward observation 8 < 10 yields no work and
cursor 8, and the nondecreasing trace 10, 12 from cursor 10 processes no
height twice. -/
theorem c3_witness :
    pollCycle 10 8 = (8, []) ∧ (pollTrace 10 [10, 12]).2.Nodup :=
  ⟨(c3_theorem 10 8 [10, 12]).1 (by decide),
   (c3_theorem 10 8 [10, 12]).2
     (List.Chain.cons (by decide) (List.Chain.cons (by decide) List.Chain.nil))⟩

/-- An ItemSold log carrying the spec's example values but, as the spec
describes the layout, only the 3 data words pricePerItem, quantity,
tokenId. -/
def c2log3 : LogRecord :=
  ⟨"0xmarket", [item_sold_topic, 0xAA, 0xBB, 0xCC], [2000000000000000000, 1, 42]⟩

/-- C2 counterexample: the well-formed ItemSold log of the claim with
exactly 3 data words {pricePerItem = 2e18, quantity = 1, tokenId = 42}
fails to decode, because the code demands at least 6 data words. -/
theorem c2_counterexample :
    decode_item_sold_event c2log3 = none ∧ c2log3.data.length = 3 := by decide

/-- C2 (amended): decoding an ItemSold log fails exactly when the data
payload has fewer than 6 words (the code checks len(chunks) >= 6, not 3);
with at least 6 words and topics {sig, buyer, nftAddress, seller},
decoding yields tokenId from word 2, pricePerItem from word 0, quantity
from word 1 and the topic-derived buyer/seller addresses. -/
theorem c2_theorem (log : LogRecord) :
    (decode_item_sold_event log = none ↔ log.data.length < 6)
    ∧ (∀ t0 t1 t2 t3 ts, log.topics = t0 :: t1 :: t2 :: t3 :: ts →
        6 ≤ log.data.length →
        decode_item_sold_event log =
          some [("tokenId", PyVal.int (log.data.getD 2 0)),
                ("buyer", PyVal.str (addrFromTopic t1)),
                ("seller", PyVal.str (addrFromTopic t3)),
                ("nftAddress", PyVal.str (addrFromTopic t2)),
                ("pricePerItem", PyVal.int (log.data.getD 0 0)),
                ("quantity", PyVal.int (log.data.getD 1 0)),
                ("paymentToken", PyVal.str "WHYPE")]) := by
  obtain ⟨addr, topics, data⟩ := log
  constructor
  · by_cases hd : data.length < 6
    · simp [decode_item_sold_event, hd]
    · simp [decode_item_sold_event, hd]
  · intro t0 t1 t2 t3 ts htop hlen
    simp only at htop
    subst htop
    simp [decode_item_sold_event, Nat.not_lt.mpr hlen]

/-- The spec's well-formed ItemSold example with 6 data words. -/
def c2log6 : LogRecord :=
  ⟨"0xmarket", [item_sold_topic, 0xAA, 0xBB, 0xCC],
   [2000000000000000000, 1, 42, 0, 0, 0]⟩

/-- C2 witness: on the 6-word example the decoder yields tokenId 42,
raw price 2e18 (displayed 2.000000), and the topic-derived addresses. -/
theorem c2_witness :
    decode_item_sold_event c2log6 =
      some [("tokenId", PyVal.int 42),
            ("buyer", PyVal.str (addrFromTopic 0xAA)),
            ("seller", PyVal.str (addrFromTopic 0xCC)),
            ("nftAddress", PyVal.str (addrFromTopic 0xBB)),
            ("pricePerItem", PyVal.int 2000000000000000000),
            ("quantity", PyVal.int 1),
            ("paymentToken", PyVal.str "WHYPE")]
    ∧ formatWei6 2000000000000000000 = "2.000000" :=
  ⟨(c2_theorem c2log6).2 item_sold_topic 0xAA 0xBB 0xCC [] rfl (by decide),
   by decide⟩

/-- A BidAccepted log with only 3 topics (no seller topic) and a full
8-word payload. -/
def c4log3t : LogRecord :=
  ⟨"0xmarket", [bid_accepted_topic, 0xAA, 0xBB],
   [1, 0, 2000000000000000000, 1, 0, 0, 0, 42]⟩

/-- C4 counterexample: a BidAccepted log with fewer than 4 topics (here
3) and 8 data words decodes successfully, with the seller falling back
to the sentinel "Unknown" — the claim says such a log must fail. -/
theorem c4_counterexample :
    (decode_bid_accepted_event c4log3t).isSome = true
    ∧ c4log3t.topics.length < 4 := by decide

/-- C4 (amended): decoding a BidAccepted log fails exactly when the data
payload has fewer than 8 words or the log has fewer than 3 topics (with
exactly 3 topics it succeeds and the seller becomes the sentinel
"Unknown"); with at least 8 words and 4 topics it yields bidType from
word 0, pricePerItem from word 2, quantity from word 3, tokenId from
word 7, and bidder/nftAddress/seller from topics 1..3. -/
theorem c4_theorem (log : LogRecord) :
    (decode_bid_accepted_event log = none
      ↔ (log.data.length < 8 ∨ log.topics.length < 3))
    ∧ (∀ t0 t1 t2 t3 ts, log.topics = t0 :: t1 :: t2 :: t3 :: ts →
        8 ≤ log.data.length →
        decode_bid_accepted_event log =
          some [("tokenId", PyVal.int (log.data.getD 7 0)),
                ("bidType", PyVal.int (log.data.getD 0 0)),
                ("bidder", PyVal.str (addrFromTopic t1)),
                ("nftAddress", PyVal.str (addrFromTopic t2)),
                ("pricePerItem", PyVal.int (log.data.getD 2 0)),
                ("quantity", PyVal.int (log.data.getD 3 0)),
                ("seller", PyVal.str (addrFromTopic t3)),
                ("paymentToken", PyVal.str "WHYPE")]) := by
  obtain ⟨addr, topics, data⟩ := log
  constructor
  · by_cases hd : data.length < 8
    · simp [decode_bid_accepted_event, hd]
    · rcases topics with _ | ⟨t0, _ | ⟨t1, _ | ⟨t2, ts⟩⟩⟩
      · simp [decode_bid_accepted_event, hd]
      · simp [decode_bid_accepted_event, hd]
      · simp [decode_bid_accepted_event, hd]
      · simp [decode_bid_accepted_event, hd]
  · intro t0 t1 t2 t3 ts htop hlen
    simp only at htop
    subst htop
    simp [decode_bid_accepted_event, Nat.not_lt.mpr hlen]

/-- The spec-shaped BidAccepted log with all 4 topics and 8 data words. -/
def c4log4t : LogRecord :=
  ⟨"0xmarket", [bid_accepted_topic, 0xAA, 0xBB, 0xCC],
   [1, 0, 2000000000000000000, 1, 0, 0, 0, 42]⟩

/-- C4 witness: with 4 topics and 8 words the decoder yields the fixed
field layout of the claim. -/
theorem c4_witness :
    decode_bid_accepted_event c4log4t =
      some [("tokenId", PyVal.int 42),
            ("bidType", PyVal.int 1),
            ("bidder", PyVal.str (addrFromTopic 0xAA)),
            ("nftAddress", PyVal.str (addrFromTopic 0xBB)),
            ("pricePerItem", PyVal.int 2000000000000000000),
            ("quantity", PyVal.int 1),
            ("seller", PyVal.str (addrFromTopic 0xCC)),
            ("paymentToken", PyVal.str "WHYPE")] :=
  (c4_theorem c4log4t).2 bid_accepted_topic 0xAA 0xBB 0xCC [] rfl (by decide)

/-- A log record with zero topics (anonymous or malformed log). -/
def c5emptyLog : LogRecord := ⟨"0xmarket", [], []⟩

/-- A well-formed, decodable ItemSold sibling log. -/
def c5goodLog : LogRecord :=
  ⟨"0xmarket", [item_sold_topic, 0xAA, 0xBB, 0xCC],
   [2000000000000000000, 1, 42, 0, 0, 0]⟩

/-- C5 counterexample: a receipt whose first log has zero topics aborts
the whole classification pass — topics[0] raises IndexError, which only
the handler outside the loop catches — so the perfectly decodable
ItemSold sibling is never classified. -/
theorem c5_counterexample :
    (decode_item_sold_event c5goodLog).isSome = true
    ∧ extract_token_ids_from_logs contract_address [c5emptyLog, c5goodLog]
        = ([], []) := by decide

/-- C5 (amended): a decode failure inside the decoders (malformed
payload, e.g. a BidAccepted log with fewer than 8 data words) skips only
that log and the siblings are still classified; but a log with zero
topics escapes the per-log handling and aborts classification of all
remaining logs in the receipt (results gathered so far are kept). -/
theorem c5_theorem (contract : String) (l : LogRecord)
    (rest : List LogRecord) (hne : l.topics ≠ [])
    (hbid : l.topics.headD 0 = bid_accepted_topic)
    (hlen : l.data.length < 8) :
    extract_token_ids_from_logs contract (l :: rest)
      = extract_token_ids_from_logs contract rest := by
  obtain ⟨addr, topics, data⟩ := l
  rcases topics with _ | ⟨t0, ts⟩
  · exact absurd rfl hne
  · simp only [List.headD_cons] at hbid
    subst hbid
    have hneq : bid_accepted_topic ≠ transfer_topic := by decide
    simp only at hlen
    simp [extract_token_ids_from_logs, hneq, decode_bid_accepted_event, hlen]

/-- A BidAccepted log with a malformed (3-word) payload. -/
def c5shortBidLog : LogRecord :=
  ⟨"0xmarket", [bid_accepted_topic, 0xAA, 0xBB, 0xCC], [1, 0, 42]⟩

/-- C5 witness: the malformed BidAccepted log is skipped and the
decodable ItemSold sibling after it is still classified. -/
theorem c5_witness :
    extract_token_ids_from_logs contract_address [c5shortBidLog, c5goodLog]
      = extract_token_ids_from_logs contract_address [c5goodLog]
    ∧ (extract_token_ids_from_logs contract_address
        [c5shortBidLog, c5goodLog]).2.length = 1 :=
  ⟨c5_theorem contract_address c5shortBidLog [c5goodLog]
     (by decide) (by decide) (by decide),
   by decide⟩

/-- A qualifying transaction addressed to the tracked contract. -/
def c1tx : Transaction :=
  ⟨"0xhash", "0xseller", some CONTRACT_ADDRESS, "0x1234567890", 0, 1⟩

/-- A receipt with one well-formed ItemSold log, tokenId 42. -/
def c1ItemReceipt : Receipt :=
  ⟨1, 21000, [⟨"0xmarket", [item_sold_topic, 0xAA, 0xBB, 0xCC],
    [2000000000000000000, 1, 42, 0, 0, 0]⟩]⟩

/-- A receipt with one well-formed BidAccepted log, tokenId 42. -/
def c1BidReceipt : Receipt :=
  ⟨1, 21000, [⟨"0xmarket", [bid_accepted_topic, 0xAA, 0xBB, 0xCC],
    [1, 0, 2000000000000000000, 1, 0, 0, 0, 42]⟩]⟩

/-- C1 (code bug): each receipt produces exactly one typed DomainEvent,
yet the notification attempt yields no message at all — the f-string
joins map(str, tokenId) over an int tokenId (TypeError for every nonzero
token id), and the ItemSold path additionally reads the key "bidder"
which the ItemSold dict does not contain (KeyError) — the exception is
caught and nothing is handed to the Notifier, contradicting the claim
that exactly one message of the fixed shape is built and handed over. -/
theorem c1_theorem :
    ((extract_token_ids_from_logs contract_address c1ItemReceipt.logs).2.length = 1
      ∧ handle_nft_transaction contract_address c1tx c1ItemReceipt = [none])
    ∧ ((extract_token_ids_from_logs contract_address c1BidReceipt.logs).2.length = 1
      ∧ handle_nft_transaction contract_address c1tx c1BidReceipt = [none]) := by
  decide

/-- The transaction of the spec's GenericTransfer test (value 1.5 HYPE). -/
def c6tx : Transaction :=
  ⟨"0xhash", "0xcafe", some CONTRACT_ADDRESS, "0x1234567890",
   1500000000000000000, 1⟩

/-- A receipt with exactly one Transfer log: 4 topics, emitted by the
tracked contract, tokenId 7, and no marketplace events. -/
def c6receipt : Receipt :=
  ⟨1, 21000, [⟨CONTRACT_ADDRESS, [transfer_topic, 0xA1, 0xA2, 7], []⟩]⟩

/-- C6: when classification yields zero typed events but at least one
bare token id, exactly one generic notification is sent, its message
carrying the joined token ids, the price formatWei6 tx.value (the
declared native-unit value), the transaction sender as the from-field
and the transaction recipient as the to-field. -/
theorem c6_theorem (contract : String) (tx : Transaction) (receipt : Receipt)
    (hev : (extract_token_ids_from_logs contract receipt.logs).2 = [])
    (hids : (extract_token_ids_from_logs contract receipt.logs).1 ≠ []) :
    handle_nft_transaction contract tx receipt =
      [some (trackerMessage
        (String.intercalate ", "
          ((extract_token_ids_from_logs contract receipt.logs).1.map toString))
        (formatWei6 tx.value) tx.fromAddr (pyOptStr tx.toAddr))] := by
  simp only [handle_nft_transaction]
  rw [hev]
  have h1 : (extract_token_ids_from_logs contract receipt.logs).1.isEmpty = false := by
    rcases hl : (extract_token_ids_from_logs contract receipt.logs).1 with _ | ⟨a, as⟩
    · exact absurd hl hids
    · simp
  simp [send_generic_notification, h1]

/-- C6 witness: the transfer-only receipt with tokenId 7 yields exactly
one generic notification built from the own value/from/to of the
transaction. -/
theorem c6_witness :
    handle_nft_transaction contract_address c6tx c6receipt =
      [some (trackerMessage
        (String.intercalate ", "
          ((extract_token_ids_from_logs contract_address c6receipt.logs).1.map toString))
        (formatWei6 c6tx.value) c6tx.fromAddr (pyOptStr c6tx.toAddr))]
    ∧ (extract_token_ids_from_logs contract_address c6receipt.logs).1 = [7]
    ∧ formatWei6 c6tx.value = "1.500000" :=
  ⟨c6_theorem contract_address c6tx c6receipt (by decide) (by decide),
   by decide, by decide⟩

/-- C8: a block pass analyzes exactly the transactions whose lower-cased
to-address equals the tracked contract (a non-qualifying transaction
contributes nothing), and a transaction whose receipt status is not
success yields zero events and zero notifications. -/
theorem c8_theorem (contract : String) (receiptOf : Transaction → Receipt)
    (txs : List Transaction) (tx : Transaction) (receipt : Receipt) :
    (process_block contract receiptOf txs
      = (txs.filter (fun t => qualifies contract t)).foldr
          (fun t acc => analyze_transaction contract t (receiptOf t) ++ acc) [])
    ∧ (qualifies contract tx = false →
        process_block contract receiptOf [tx] = [])
    ∧ (receipt.status ≠ 1 → analyze_transaction contract tx receipt = []) := by
  refine ⟨?_, ?_, ?_⟩
  · induction txs with
    | nil => rfl
    | cons t ts ih =>
      by_cases hq : qualifies contract t
      · simp [process_block, List.filter_cons, hq, ih]
      · simp [process_block, List.filter_cons, hq, ih]
  · intro hq
    simp [process_block, hq]
  · intro hs
    simp [analyze_transaction, hs]

/-- C8 witness: a transaction addressed elsewhere is skipped by the
block pass, and a success-status check of 0 yields no output even for a
qualifying transaction whose receipt holds a decodable ItemSold log. -/
theorem c8_witness :
    process_block contract_address (fun _ => ⟨1, 0, []⟩)
      [⟨"0xh", "0xf", some "0xDEADBEEF", "0x1234567890", 0, 1⟩] = []
    ∧ analyze_transaction contract_address
        ⟨"0xh", "0xf", some CONTRACT_ADDRESS, "0x1234567890", 0, 1⟩
        ⟨0, 21000, [⟨"0xmarket", [item_sold_topic, 0xAA, 0xBB, 0xCC],
          [2000000000000000000, 1, 42, 0, 0, 0]⟩]⟩ = [] :=
  ⟨(c8_theorem contract_address (fun _ => ⟨1, 0, []⟩) []
      ⟨"0xh", "0xf", some "0xDEADBEEF", "0x1234567890", 0, 1⟩ ⟨1, 0, []⟩).2.1
      (by decide),
   (c8_theorem contract_address (fun _ => ⟨1, 0, []⟩) []
      ⟨"0xh", "0xf", some CONTRACT_ADDRESS, "0x1234567890", 0, 1⟩
      ⟨0, 21000, [⟨"0xmarket", [item_sold_topic, 0xAA, 0xBB, 0xCC],
        [2000000000000000000, 1, 42, 0, 0, 0]⟩]⟩).2.2 (by decide)⟩

/-- C9: a transaction is classified only when its input hex string is at
least 10 characters long (0x plus a 4-byte selector); any shorter or
empty input produces zero events and zero notifications, regardless of
the receipt contents. -/
theorem c9_theorem (contract : String) (tx : Transaction) (receipt : Receipt) :
    (tx.input.length < 10 → analyze_transaction contract tx receipt = [])
    ∧ (analyze_transaction contract tx receipt ≠ [] → 10 ≤ tx.input.length) := by
  have key : tx.input.length < 10 → analyze_transaction contract tx receipt = [] := by
    intro h
    unfold analyze_transaction
    by_cases hs : receipt.status ≠ 1
    · simp [hs]
    · have hc : ¬(tx.input ≠ "" ∧ 10 ≤ tx.input.length) := by
        intro hand
        omega
      simp [hs, hc]
  refine ⟨key, ?_⟩
  intro hne
  by_contra hlt
  push_neg at hlt
  exact hne (key hlt)

/-- C9 witness: a qualifying success transaction whose input is only
"0x12" produces nothing, although its receipt carries a perfectly
decodable ItemSold log. -/
theorem c9_witness :
    analyze_transaction contract_address
      ⟨"0xh", "0xf", some CONTRACT_ADDRESS, "0x12", 0, 1⟩
      ⟨1, 21000, [⟨"0xmarket", [item_sold_topic, 0xAA, 0xBB, 0xCC],
        [2000000000000000000, 1, 42, 0, 0, 0]⟩]⟩ = []
    ∧ (decode_item_sold_event ⟨"0xmarket", [item_sold_topic, 0xAA, 0xBB, 0xCC],
        [2000000000000000000, 1, 42, 0, 0, 0]⟩).isSome = true :=
  ⟨(c9_theorem contract_address
      ⟨"0xh", "0xf", some CONTRACT_ADDRESS, "0x12", 0, 1⟩
      ⟨1, 21000, [⟨"0xmarket", [item_sold_topic, 0xAA, 0xBB, 0xCC],
        [2000000000000000000, 1, 42, 0, 0, 0]⟩]⟩).1 (by decide),
   by decide⟩
